import Mathlib

/-!
Shallow embedding of the LinkedIn-post generation pipeline
(`src/state.py`, `src/utils.py`, `src/main.py`).

Model invocations (`llm.with_structured_output(T).invoke(...)`) are external
collaborators: each is abstracted as a function from the prompt (the message
contents actually sent) to `Except String T`, where `Except.error` stands for
a raised exception of any kind (timeout, provider error, validation error).
Likewise `WebBaseLoader(...).load()` is abstracted as a function from the
validated URL to `Except String (List String)` (the `page_content` of each
returned document, or a raised exception).

Python triple-quoted f-strings are reproduced with their text content;
the incidental leading indentation whitespace of each line inside the
triple-quoted literals is elided, which no claim depends on.
-/

namespace LinkedinPost

/-! ## Data model (`src/state.py`) -/

/-- `ContentInsight` (pydantic model, src/state.py). -/
structure ContentInsight where
  title : String
  description : String
  audience_relevance : String
  value_alignment : String
deriving Repr, DecidableEq

/-- `GeneratedLinkedinPost` (pydantic model, src/state.py). `hashtags` is
`Optional[list[str]]` with default `None`. -/
structure GeneratedLinkedinPost where
  title : String
  hook : String
  body : String
  call_to_action : String
  hashtags : Option (List String) := none
deriving Repr, DecidableEq

/-- Modelled from the spec: `SelectedBest = {id: integer index (1-based),
reason: string}`. The class `SelectedBestPost` is imported by `src/main.py`
from `state` but its definition is missing from `src/state.py` as provided;
the spec's §3 data model supplies its shape. (The extra `Title=` keyword
passed at the one construction site in `main.py` is an extra field, which a
pydantic model ignores by default.) -/
structure SelectedBestPost where
  id : Int
  reason : String
deriving Repr, DecidableEq

/-- `GraphState` (TypedDict, src/state.py). Keys read via `.get` may be
absent, hence `Option`; `best_selected` is written by `select_best_post`
(and appears in the spec's WorkflowState). `messages` is never touched by
any node; message values are abstracted as strings. -/
structure GraphState where
  messages : List String := []
  website_url : Option String := none
  given_content : Option String := none
  tone : String := ""
  target_audience : String := ""
  value_proposition : String := ""
  brand_persona : String := ""
  website_content : Option String := none
  content_insights : Option (List ContentInsight) := none
  linkedin_posts : Option (List GeneratedLinkedinPost) := none
  best_selected : Option SelectedBestPost := none
deriving Repr, DecidableEq

/-! ## URL validation (`src/utils.py`, `ensure_url`)

The regex is
`^(https?:\/\/)?(www\.)?([a-zA-Z0-9.-]+)(\.[a-zA-Z]{2,})?(:\d+)?(\/[^\s]*)?$`
with `re.IGNORECASE`.  Since `www.` and `.[a-zA-Z]{2,}` are both nonempty
strings over `[a-zA-Z0-9.-]` and both groups are optional, the language of
`(www\.)?([a-zA-Z0-9.-]+)(\.[a-zA-Z]{2,})?` is exactly the nonempty strings
over `[a-zA-Z0-9.-]`; the matcher below uses that normal form.  Maximal-munch
is complete here because the first characters of the port (`:`) and path
(`/`) pieces are not host characters, and a port's digits cannot contain the
`/` that a path must start with.  `IGNORECASE` is realised by lowercasing the
input (every character class in the pattern is closed under ASCII case).
Python's `$` (without `re.MULTILINE`) matches at the end of the string or
just before one trailing `'\n'`: the pattern accepts `s` iff the pieces
consume all of `s`, or all of `s` minus a final newline character. -/

/-- Python's `\s` restricted to the ASCII range (Python's `\s` on `str`
patterns additionally matches Unicode whitespace such as `'\xa0'`). The
restriction only makes the model's `[^\s]*` path piece accept MORE than the
code, so the model's accepted set is a superset of the code's: every
rejection proved below also holds of the code, and every acceptance proved
below is at a concrete all-ASCII input where model and code agree. -/
def isPySpace (c : Char) : Bool :=
  c = ' ' || c = '\t' || c = '\n' || c = '\r' || c = '\x0b' || c = '\x0c'

/-- The character class `[a-zA-Z0-9.-]` of the host piece. -/
def isHostChar (c : Char) : Bool :=
  c.isAlpha || c.isDigit || c = '.' || c = '-'

/-- `(\/[^\s]*)?$` : nothing, or a `/` followed by non-whitespace. -/
def matchPathOpt (cs : List Char) : Bool :=
  match cs with
  | [] => true
  | c :: rest => decide (c = '/') && rest.all (fun x => !(isPySpace x))

/-- `(:\d+)?(\/[^\s]*)?$` : an optional `:` with at least one digit, then
the optional path. -/
def matchPortPath (cs : List Char) : Bool :=
  match cs with
  | [] => true
  | c :: rest =>
    if c = ':' then
      decide (rest.takeWhile Char.isDigit ≠ []) &&
        matchPathOpt (rest.dropWhile Char.isDigit)
    else matchPathOpt (c :: rest)

/-- `(www\.)?([a-zA-Z0-9.-]+)(\.[a-zA-Z]{2,})?(:\d+)?(\/[^\s]*)?$` in the
normal form described above: a nonempty run of host characters, then port
and path. -/
def matchHostPortPath (cs : List Char) : Bool :=
  decide (cs.takeWhile isHostChar ≠ []) &&
    matchPortPath (cs.dropWhile isHostChar)

/-- `(https?:\/\/)?` : strip a literal scheme prefix if present (the input
has already been lowercased). A string starting with a scheme cannot match
with the scheme group skipped, since `:` and `/` are not host characters. -/
def stripScheme (cs : List Char) : List Char :=
  match cs with
  | 'h' :: 't' :: 't' :: 'p' :: 's' :: ':' :: '/' :: '/' :: rest => rest
  | 'h' :: 't' :: 't' :: 'p' :: ':' :: '/' :: '/' :: rest => rest
  | _ => cs

/-- Drop one final `'\n'` if present: the characters of a string that lie
strictly before the positions where Python's `$` can match. -/
def dropTrailingNewline (cs : List Char) : List Char :=
  if cs.getLast? = some '\n' then cs.dropLast else cs

/-- `url_regex.match(string)` of `ensure_url` (as a Boolean: did it match).
Python's `$` matches at the very end of the string, or just before a single
trailing `'\n'`, so the pattern pieces may consume either the whole
(lowercased) string or the whole string minus one final newline. -/
def url_regex_match (s : String) : Bool :=
  matchHostPortPath (stripScheme (s.data.map Char.toLower)) ||
    (decide (s.data.getLast? = some '\n') &&
      matchHostPortPath (stripScheme (s.data.dropLast.map Char.toLower)))

/-- Python's case-sensitive `str.startswith`, on the character list (the
library `String.startsWith` is avoided because its byte-position loop does
not reduce definitionally). -/
def pyStartsWith (s pfx : String) : Bool := pfx.data.isPrefixOf s.data

/-- Python's `str.strip()` restricted to the ASCII whitespace characters:
drop leading and trailing whitespace. -/
def pyStrip (s : String) : String :=
  String.mk (((s.data.dropWhile isPySpace).reverse.dropWhile isPySpace).reverse)

/-- Python's `s[:n]` character slice. -/
def pyTake (s : String) (n : Nat) : String := String.mk (s.data.take n)

/-- The prefixing step of `ensure_url`: `if not string.startswith(("http://",
"https://")): string = "http://" + string` (case-sensitive, like Python's
`startswith`). -/
def normalize_url (s : String) : String :=
  if pyStartsWith s "http://" || pyStartsWith s "https://" then s
  else "http://" ++ s

/-- `ensure_url` (src/utils.py): prefix the scheme if absent, then validate
against the URL regex; `Except.error` stands for the raised `ValueError`. -/
def ensure_url (s : String) : Except String String :=
  let s := normalize_url s
  if url_regex_match s then Except.ok s
  else Except.error ("Invalid URL: " ++ s)

/-! ## Web fetching (`src/utils.py`, `fetch_website_content`) -/

/-- The body of `fetch_website_content` after URL validation:
`WebBaseLoader(web_paths=[validated_url]).load()` (abstracted as `loader`),
then `text_docs[0].page_content.strip()[:max_length]` if any document came
back, else `None`. A loader error is the exception case of the `try`. -/
def load_and_truncate (loader : String → Except String (List String))
    (validated_url : String) (max_length : Nat) : Option String :=
  match loader validated_url with
  | Except.error _ => none
  | Except.ok [] => none
  | Except.ok (d :: _) => some (pyTake (pyStrip d) max_length)

/-- `fetch_website_content` (src/utils.py): every exception inside the `try`
(an invalid URL from `ensure_url`, or a loader failure) yields `None`. -/
def fetch_website_content (loader : String → Except String (List String))
    (url : String) (max_length : Nat := 10000) : Option String :=
  match ensure_url url with
  | Except.error _ => none
  | Except.ok validated_url => load_and_truncate loader validated_url max_length

/-! ## Stage 1: `get_website_content` (src/main.py) -/

/-- Python truthiness of an optional string: `None` and `""` are falsy. -/
def truthyOpt : Option String → Bool
  | some s => s ≠ ""
  | none => false

/-- The web half of the `content` list: fetch only when `website_url` is
truthy (`if website_url:` in the source). -/
def acquired_web (loader : String → Except String (List String))
    (st : GraphState) : Option String :=
  if truthyOpt st.website_url then
    fetch_website_content loader (st.website_url.getD "") 10000
  else none

/-- `if x: content.append(x)` — keep a string only when truthy. -/
def opt_to_list : Option String → List String
  | some s => if s = "" then [] else [s]
  | none => []

/-- Node `get_website_content`: build `content` from the truthy fetched web
text and the truthy literal text, then
`state["website_content"] = "\n\n".join(content) if content else ""`
(joining the empty list also gives `""`). -/
def get_website_content (loader : String → Except String (List String))
    (st : GraphState) : GraphState :=
  let content := opt_to_list (acquired_web loader st) ++ opt_to_list st.given_content
  { st with website_content := some (String.intercalate "\n\n" content) }

/-! ## Stage 2: `generate_content_insights` (src/main.py) -/

/-- The stage-2 f-string prompt for insight `i` (0-based loop index; the
text says insight `i+1` of 3). Note it mentions only the content blob,
`target_audience` and `value_proposition` — not `tone` or `brand_persona`. -/
def insight_prompt (content target_audience value_proposition : String)
    (i : Nat) : String :=
  "You are a creative content strategist. Generate three unique content insights from different angle for creating LinkedIn post, based on:\n\n" ++
  "Content Source:\n" ++ content ++ "\n\n" ++
  "Target Audience: " ++ target_audience ++ "\n" ++
  "Value Proposition: " ++ value_proposition ++ "\n\n" ++
  "Format your response as a single insight with:\n" ++
  "1. A creative TITLE (max 10 words)\n" ++
  "2. A DESCRIPTION (1-2 sentences explaining the insight)\n" ++
  "3. AUDIENCE RELEVANCE (1-2 sentences explaining how this insight specifically connects with the target audience)\n" ++
  "4. VALUE ALIGNMENT (1-2 sentences explaining how this insight aligns with value proposition)\n\n" ++
  "This should be insight #" ++ toString (i + 1) ++
  " of 3, make sure it\x27s from unique angle and different from other insights, and do not repeat any previous insights.\n"

/-- The fallback `ContentInsight` built in the `except` branch for 0-based
loop index `i` (`title=f"Insight {i+1}"`). -/
def fallback_insight (i : Nat) : ContentInsight :=
  { title := "Insight " ++ toString (i + 1)
    description := "Unable to generate insight. Please try again."
    audience_relevance := "N/A"
    value_alignment := "N/A" }

/-- Node `generate_content_insights`: `for i in range(3)`, invoke the model
on the prompt; on success append the insight, on any exception append the
fallback. The node itself is total: it always stores exactly the 3 results
in `state["content_insights"]`. -/
def generate_content_insights
    (insightModel : String → Except String ContentInsight)
    (st : GraphState) : GraphState :=
  let content := st.website_content.getD ""
  let insights := (List.range 3).map (fun i =>
    match insightModel (insight_prompt content st.target_audience st.value_proposition i) with
    | Except.ok insight => insight
    | Except.error _ => fallback_insight i)
  { st with content_insights := some insights }

/-! ## Stage 3: `generate_linkedin_posts` / `generate_single_post` -/

/-- The dictionary payload of one `Send("generate_single_post", {...})`. -/
structure SendPayload where
  insight : ContentInsight
  tone : String
  target_audience : String
  value_proposition : String
  brand_persona : String
deriving Repr, DecidableEq

/-- Node `generate_linkedin_posts`: one `Send` payload per entry of
`state.get('content_insights', [])`, each carrying the shared configuration
strings. -/
def generate_linkedin_posts (st : GraphState) : List SendPayload :=
  (st.content_insights.getD []).map (fun insight =>
    { insight := insight
      tone := st.tone
      target_audience := st.target_audience
      value_proposition := st.value_proposition
      brand_persona := st.brand_persona })

/-- The f-string prompt of `generate_single_post`. -/
def single_post_prompt (p : SendPayload) : String :=
  "Generate a compelling LinkedIn post based on the following insight:\n\n" ++
  "Insight Title: " ++ p.insight.title ++ "\n" ++
  "Insight Description: " ++ p.insight.description ++ "\n" ++
  "Audience Relevance: " ++ p.insight.audience_relevance ++ "\n" ++
  "Value Alignment: " ++ p.insight.value_alignment ++ "\n\n" ++
  "Post Generation Guidelines:\n" ++
  "- Tone: " ++ p.tone ++ "\n" ++
  "- Target Audience: " ++ p.target_audience ++ "\n" ++
  "- Value Proposition: " ++ p.value_proposition ++ "\n" ++
  "- Brand Persona: " ++ p.brand_persona ++ "\n\n" ++
  "Craft a LinkedIn post with:\n" ++
  "1. An attention-grabbing TITLE\n" ++
  "2. A strong HOOK that immediately engages the reader\n" ++
  "3. A substantive BODY that provides real value\n" ++
  "4. A clear CALL TO ACTION\n" ++
  "5. Relevant HASHTAGS to increase post visibility\n"

/-- Node `generate_single_post`: invoke the model; on success return the
partial update `{"linkedin_posts": [post]}`; on exception, log and
`raise` — the error is re-raised, not swallowed. -/
def generate_single_post
    (postModel : String → Except String GeneratedLinkedinPost)
    (p : SendPayload) : Except String (List GeneratedLinkedinPost) :=
  match postModel (single_post_prompt p) with
  | Except.ok post => Except.ok [post]
  | Except.error e => Except.error e

/-- Modelled from the spec: the graph runtime's fan-out/fan-in join
("spawn N independent tasks from one state, join all before proceeding,
collect into an ordered sequence preserving input order, propagate first
error" — spec §9); the `Send`-based dispatch itself is LangGraph runtime
behaviour, not code under src/. Collect each branch's `linkedin_posts`
update in order; if any branch raised, the join fails with that error. -/
def collectBranches :
    List (Except String (List GeneratedLinkedinPost)) →
      Except String (List GeneratedLinkedinPost)
  | [] => Except.ok []
  | r :: rs =>
    match r with
    | Except.error e => Except.error e
    | Except.ok l =>
      match collectBranches rs with
      | Except.error e => Except.error e
      | Except.ok ls => Except.ok (l ++ ls)

/-- Stage 3 as a whole: fan out one `generate_single_post` branch per
payload of `generate_linkedin_posts`, join, and store the gathered posts in
`state["linkedin_posts"]`; a single branch failure aborts the stage. -/
def fanout_generate_posts
    (postModel : String → Except String GeneratedLinkedinPost)
    (st : GraphState) : Except String GraphState :=
  match collectBranches
      ((generate_linkedin_posts st).map (generate_single_post postModel)) with
  | Except.error e => Except.error e
  | Except.ok posts => Except.ok { st with linkedin_posts := some posts }

/-! ## Stage 4: `select_best_post` (src/main.py) -/

/-- `', '.join(post.hashtags) if post.hashtags else 'None'` — Python
truthiness: `None` and the empty list give `'None'`. -/
def hashtags_str : Option (List String) → String
  | some hs => if hs = [] then "None" else String.intercalate ", " hs
  | none => "None"

/-- One line of the `Generated Posts:` listing inside the selection prompt
(the source has no space between `call_to_action` and `Hashtags:`). -/
def post_summary_line (i : Nat) (post : GeneratedLinkedinPost) : String :=
  "Post " ++ toString (i + 1) ++ ": " ++ post.title ++ " " ++ post.hook ++
    " " ++ post.body ++ " " ++ post.call_to_action ++ "Hashtags: " ++
    hashtags_str post.hashtags

/-- The `selection_prompt` f-string (the post lines joined by `chr(10)`). -/
def selection_prompt_text (posts : List GeneratedLinkedinPost) : String :=
  "\nFrom the following generated LinkedIn posts, select the BEST post based on:\n" ++
  "1. Engagement potential\n" ++
  "2. Alignment with target audience\n" ++
  "3. Clarity of message\n" ++
  "4. Uniqueness of insight\n\n" ++
  "Generated Posts:\n" ++
  String.intercalate "\n" (posts.enum.map (fun ip => post_summary_line ip.1 ip.2)) ++
  "\n\n" ++
  "Provide a detailed explanation for your selection, explaining why the chosen post is the best in terms of the criteria mentioned above.\n"

/-- The content of the `AIMessage` appended for post `i` in the invocation
message list. -/
def ai_post_message (i : Nat) (post : GeneratedLinkedinPost) : String :=
  "Post " ++ toString (i + 1) ++ ":\nTitle: " ++ post.title ++
    "\nHook: " ++ post.hook ++ "\nBody: " ++ post.body ++
    "\nCall to Action: " ++ post.call_to_action ++ "\nHashtags: " ++
    hashtags_str post.hashtags

/-- A Python list index expression: an integer, or (erroneously) a list. -/
inductive PyIndex where
  | int : Int → PyIndex
  | list : List Int → PyIndex

/-- Python list indexing `l[ix]`: an integer index (negative counts from the
end) succeeds when in range; indexing with a *list*, as in the source's
`linkedin_posts[[0]]`, raises `TypeError`. -/
def pyListIndex {α : Type} (l : List α) : PyIndex → Except String α
  | PyIndex.int i =>
    let j : Int := if i < 0 then i + l.length else i
    if h : 0 ≤ j ∧ j.toNat < l.length then Except.ok (l.get ⟨j.toNat, h.2⟩)
    else Except.error "IndexError: list index out of range"
  | PyIndex.list _ =>
    Except.error "TypeError: list indices must be integers or slices, not list"

/-- Node `select_best_post`: on an empty `linkedin_posts` return the state
unchanged; otherwise invoke the selection model on the selection prompt plus
one `AIMessage` per post. On success, store the model's `SelectedBestPost`.
On exception, the `except` branch evaluates
`linkedin_posts[[0]].title if linkedin_posts else "No Title"` — indexing the
list with the list literal `[0]`, which raises `TypeError`; that exception
escapes the handler, so the fallback `SelectedBestPost(id=1, ...,
reason="Default selection due to error in best post selection")` is never
actually returned. -/
def select_best_post
    (selectModel : List String → Except String SelectedBestPost)
    (st : GraphState) : Except String GraphState :=
  let linkedin_posts := st.linkedin_posts.getD []
  if linkedin_posts = [] then Except.ok st
  else
    match selectModel (selection_prompt_text linkedin_posts ::
        linkedin_posts.enum.map (fun ip => ai_post_message ip.1 ip.2)) with
    | Except.ok best_post =>
      Except.ok { st with best_selected := some best_post
                          linkedin_posts := some linkedin_posts }
    | Except.error _ =>
      match (if linkedin_posts ≠ [] then
              (pyListIndex linkedin_posts (PyIndex.list [0])).map (fun p => p.title)
             else Except.ok "No Title") with
      | Except.ok _ =>
        Except.ok { st with
          best_selected := some
            { id := 1
              reason := "Default selection due to error in best post selection" }
          linkedin_posts := some linkedin_posts }
      | Except.error e => Except.error e

/-! ## The compiled graph and `run_workflow` -/

/-- The compiled graph's `invoke`: START → `get_website_content` →
`generate_content_insights` → conditional `Send` fan-out into
`generate_single_post` branches → `select_best_post` → END. -/
def workflow_invoke (loader : String → Except String (List String))
    (insightModel : String → Except String ContentInsight)
    (postModel : String → Except String GeneratedLinkedinPost)
    (selectModel : List String → Except String SelectedBestPost)
    (inputs : GraphState) : Except String GraphState :=
  let st1 := get_website_content loader inputs
  let st2 := generate_content_insights insightModel st1
  match fanout_generate_posts postModel st2 with
  | Except.error e => Except.error e
  | Except.ok st3 => select_best_post selectModel st3

/-- `run_workflow`: create the workflow and invoke it; the `except` branch
logs and re-raises, so errors propagate unchanged to the caller. -/
def run_workflow (loader : String → Except String (List String))
    (insightModel : String → Except String ContentInsight)
    (postModel : String → Except String GeneratedLinkedinPost)
    (selectModel : List String → Except String SelectedBestPost)
    (inputs : GraphState) : Except String GraphState :=
  workflow_invoke loader insightModel postModel selectModel inputs

/-! ## Concrete instances used for witnesses -/

/-- A sample drafted post. -/
def samplePost : GeneratedLinkedinPost :=
  { title := "T", hook := "H", body := "B", call_to_action := "C" }

/-- A sample insight. -/
def sampleInsight : ContentInsight :=
  { title := "AI at work", description := "D", audience_relevance := "R",
    value_alignment := "V" }

/-- A web loader that always fails (network error). -/
def failLoader : String → Except String (List String) :=
  fun _ => Except.error "network error"

/-- A web loader that always returns one document. -/
def okLoader : String → Except String (List String) :=
  fun _ => Except.ok ["WEB"]

/-- An insight model whose every invocation raises. -/
def failInsightModel : String → Except String ContentInsight :=
  fun _ => Except.error "provider error"

/-- An insight model whose every invocation succeeds. -/
def okInsightModel : String → Except String ContentInsight :=
  fun _ => Except.ok sampleInsight

/-- A post model whose every invocation raises. -/
def failPostModel : String → Except String GeneratedLinkedinPost :=
  fun _ => Except.error "provider error"

/-- A post model whose every invocation succeeds. -/
def okPostModel : String → Except String GeneratedLinkedinPost :=
  fun _ => Except.ok samplePost

/-- A selection model whose every invocation raises. -/
def failSelectModel : List String → Except String SelectedBestPost :=
  fun _ => Except.error "provider error"

/-- A selection model whose every invocation succeeds. -/
def okSelectModel : List String → Except String SelectedBestPost :=
  fun _ => Except.ok { id := 1, reason := "clear and engaging" }

/-! ## C1 -/

/-- C1: the claim says that when the best-post selection call fails on a
non-empty post list, `select_best_post` never propagates an error and
returns `best_selected` with `id = 1` and the fixed fallback reason. On the
code as written this is false: the `except` branch evaluates
`linkedin_posts[[0]].title`, and indexing a Python list with a list raises
`TypeError`, which escapes the handler — evaluated here at a one-post state
with a failing selection model, the node returns that error instead of any
fallback state. -/
theorem C1_selection_fallback_raises_typeerror :
    select_best_post failSelectModel { linkedin_posts := some [samplePost] } =
      Except.error "TypeError: list indices must be integers or slices, not list" := by
  rfl

/-! ## C2 -/

/-- C2: stage 2 always stores exactly 3 insights and never fails (it is a
total function into `GraphState`); whichever calls fail, the corresponding
entries equal the fixed fallback `ContentInsight` with title `"Insight i"`
and the placeholder texts. -/
theorem C2_three_insights_with_fixed_fallback
    (im : String → Except String ContentInsight) (st : GraphState) :
    (((generate_content_insights im st).content_insights).getD []).length = 3 ∧
    ∀ i, i < 3 →
      (∃ e, im (insight_prompt (st.website_content.getD "") st.target_audience
        st.value_proposition i) = Except.error e) →
      (((generate_content_insights im st).content_insights).getD []).get? i =
        some (fallback_insight i) := by
  constructor
  · simp [generate_content_insights]
  · intro i hi h
    obtain ⟨e, he⟩ := h
    simp only [generate_content_insights, Option.getD_some]
    rw [List.get?_eq_getElem?, List.getElem?_map, List.getElem?_range hi]
    simp [he]

/-- C2 witness: with an always-failing insight model and an empty initial
state, there are 3 insights and the first is the fixed fallback. -/
theorem C2_three_insights_with_fixed_fallback_witness :
    (((generate_content_insights failInsightModel {}).content_insights).getD []).length = 3 ∧
    (((generate_content_insights failInsightModel {}).content_insights).getD []).get? 0 =
      some (fallback_insight 0) :=
  ⟨(C2_three_insights_with_fixed_fallback failInsightModel {}).1,
   (C2_three_insights_with_fixed_fallback failInsightModel {}).2 0 (by decide)
     ⟨"provider error", rfl⟩⟩

/-! ## C5 -/

/-- C5: on a state whose `linkedin_posts` is empty (or absent),
`select_best_post` returns the state itself unchanged — every field intact,
no `best_selected` set, no error. -/
theorem C5_empty_posts_noop
    (sm : List String → Except String SelectedBestPost) (st : GraphState)
    (h : st.linkedin_posts.getD [] = []) :
    select_best_post sm st = Except.ok st := by
  simp [select_best_post, h]

/-- C5 witness: applied at the default state and a failing selection model. -/
theorem C5_empty_posts_noop_witness :
    select_best_post failSelectModel {} = Except.ok ({} : GraphState) :=
  C5_empty_posts_noop failSelectModel {} rfl

/-! ## C8 -/

/-- C8: stage 2 reads only the content blob, `target_audience` and
`value_proposition`; two states that differ only in `tone` and
`brand_persona` produce identical `content_insights` under the same model. -/
theorem C8_insights_independent_of_tone_and_brand_persona
    (im : String → Except String ContentInsight) (st : GraphState)
    (t b : String) :
    (generate_content_insights im
        { st with tone := t, brand_persona := b }).content_insights =
      (generate_content_insights im st).content_insights := rfl

/-! ## C9 -/

/-- C9: with the model invocations fixed to deterministic functions, the
orchestration is a pure function of its inputs: two runs of the full
pipeline on identical input yield identical results. -/
theorem C9_pipeline_deterministic
    (loader : String → Except String (List String))
    (im : String → Except String ContentInsight)
    (pm : String → Except String GeneratedLinkedinPost)
    (sm : List String → Except String SelectedBestPost)
    (inputs : GraphState) (r1 r2 : Except String GraphState)
    (h1 : r1 = run_workflow loader im pm sm inputs)
    (h2 : r2 = run_workflow loader im pm sm inputs) : r1 = r2 :=
  h1.trans h2.symm

/-- C9 witness: two runs at a concrete input with concrete deterministic
models are equal. -/
theorem C9_pipeline_deterministic_witness :
    run_workflow failLoader failInsightModel okPostModel okSelectModel {} =
      run_workflow failLoader failInsightModel okPostModel okSelectModel {} :=
  C9_pipeline_deterministic failLoader failInsightModel okPostModel
    okSelectModel {} _ _ rfl rfl

/-! ## Helper lemmas about the fan-out join -/

/-- If every branch's model call succeeds, the join succeeds and gathers
exactly one post per branch. -/
theorem collectBranches_ok_of_all_ok
    (pm : String → Except String GeneratedLinkedinPost) :
    ∀ ps : List SendPayload,
      (∀ p ∈ ps, ∃ post, pm (single_post_prompt p) = Except.ok post) →
      ∃ posts, collectBranches (ps.map (generate_single_post pm)) =
          Except.ok posts ∧ posts.length = ps.length := by
  intro ps
  induction ps with
  | nil => exact fun _ => ⟨[], rfl, rfl⟩
  | cons p ps ih =>
    intro h
    obtain ⟨post, hp⟩ := h p (List.mem_cons_self p ps)
    obtain ⟨posts, hc, hlen⟩ := ih (fun q hq => h q (List.mem_cons_of_mem p hq))
    refine ⟨post :: posts, ?_, by simp [hlen]⟩
    simp [collectBranches, generate_single_post, hp, hc]

/-- If some branch's model call fails, the join fails. -/
theorem collectBranches_error_of_some_error
    (pm : String → Except String GeneratedLinkedinPost) :
    ∀ ps : List SendPayload,
      (∃ p ∈ ps, ∃ e, pm (single_post_prompt p) = Except.error e) →
      ∃ e, collectBranches (ps.map (generate_single_post pm)) =
          Except.error e := by
  intro ps
  induction ps with
  | nil => rintro ⟨p, hp, _⟩; exact absurd hp (List.not_mem_nil p)
  | cons q ps ih =>
    rintro ⟨p, hp, e, he⟩
    rcases List.mem_cons.mp hp with hEq | hMem
    · subst hEq
      exact ⟨e, by simp [collectBranches, generate_single_post, he]⟩
    · cases hq : generate_single_post pm q with
      | error e0 => exact ⟨e0, by simp [collectBranches, hq]⟩
      | ok l =>
        obtain ⟨e1, hc⟩ := ih ⟨p, hMem, e, he⟩
        exact ⟨e1, by simp [collectBranches, hq, hc]⟩

/-! ## C3 -/

/-- C3: if every branch call of stage 3 succeeds, the stage succeeds and the
resulting `linkedin_posts` has exactly one post per content insight: its
length equals the length of `content_insights`. -/
theorem C3_all_branches_ok_gives_one_post_per_insight
    (pm : String → Except String GeneratedLinkedinPost) (st : GraphState)
    (l : List ContentInsight) (hins : st.content_insights = some l)
    (hok : ∀ p ∈ generate_linkedin_posts st,
      ∃ post, pm (single_post_prompt p) = Except.ok post) :
    ∃ posts, fanout_generate_posts pm st =
        Except.ok { st with linkedin_posts := some posts } ∧
      posts.length = l.length := by
  obtain ⟨posts, hc, hlen⟩ :=
    collectBranches_ok_of_all_ok pm (generate_linkedin_posts st) hok
  refine ⟨posts, ?_, ?_⟩
  · simp [fanout_generate_posts, hc]
  · rw [hlen]; simp [generate_linkedin_posts, hins]

/-- C3 witness: one insight, an always-succeeding post model — exactly one
post comes out. -/
theorem C3_all_branches_ok_gives_one_post_per_insight_witness :
    ∃ posts, fanout_generate_posts okPostModel
        { content_insights := some [sampleInsight] } =
        Except.ok { content_insights := some [sampleInsight],
                    linkedin_posts := some posts } ∧
      posts.length = [sampleInsight].length :=
  C3_all_branches_ok_gives_one_post_per_insight okPostModel
    { content_insights := some [sampleInsight] } [sampleInsight] rfl
    (fun _ _ => ⟨samplePost, rfl⟩)

/-! ## C4 -/

/-- C4: if any single stage-3 branch's model call fails (on the state that
stage 3 actually receives), the whole pipeline invocation aborts:
`run_workflow` propagates an error to its caller instead of returning a
state. -/
theorem C4_branch_failure_aborts_pipeline
    (loader : String → Except String (List String))
    (im : String → Except String ContentInsight)
    (pm : String → Except String GeneratedLinkedinPost)
    (sm : List String → Except String SelectedBestPost)
    (inputs : GraphState)
    (h : ∃ p ∈ generate_linkedin_posts
          (generate_content_insights im (get_website_content loader inputs)),
        ∃ e, pm (single_post_prompt p) = Except.error e) :
    ∃ e, run_workflow loader im pm sm inputs = Except.error e := by
  obtain ⟨e, hc⟩ := collectBranches_error_of_some_error pm _ h
  exact ⟨e, by simp [run_workflow, workflow_invoke, fanout_generate_posts, hc]⟩

/-- C4 witness: an always-failing post model (with stage 2 degraded to its
three fallback insights) aborts the whole run. -/
theorem C4_branch_failure_aborts_pipeline_witness :
    ∃ e, run_workflow failLoader failInsightModel failPostModel okSelectModel {} =
      Except.error e :=
  C4_branch_failure_aborts_pipeline failLoader failInsightModel failPostModel
    okSelectModel {}
    ⟨{ insight := fallback_insight 0, tone := "", target_audience := "",
       value_proposition := "", brand_persona := "" },
     by decide, "provider error", rfl⟩

/-! ## C6 -/

/-- C6: (1) a scheme-less URL such as `"example.com"` is normalized to
`"http://example.com"` and fetching proceeds on the normalized URL; (2) any
loader failure is swallowed into `none`; (3) the invalid URL
`"not a url??"` is swallowed into `none` whatever the loader does; (4) with
every fetch failing, the pipeline continues and the content blob falls back
to the literal content only. -/
theorem C6_url_normalization_and_fetch_failures_swallowed :
    (∀ loader, fetch_website_content loader "example.com" 10000 =
      load_and_truncate loader "http://example.com" 10000) ∧
    (∀ loader url, (∀ u, ∃ e, loader u = Except.error e) →
      fetch_website_content loader url 10000 = none) ∧
    (∀ loader, fetch_website_content loader "not a url??" 10000 = none) ∧
    (∀ loader (st : GraphState) g, (∀ u, ∃ e, loader u = Except.error e) →
      st.given_content = some g → g ≠ "" →
      (get_website_content loader st).website_content = some g) := by
  have hfail : ∀ (loader : String → Except String (List String)) url,
      (∀ u, ∃ e, loader u = Except.error e) →
      fetch_website_content loader url 10000 = none := by
    intro loader url h
    cases hu : ensure_url url with
    | error e => simp [fetch_website_content, hu]
    | ok v =>
      obtain ⟨e, he⟩ := h v
      simp [fetch_website_content, hu, load_and_truncate, he]
  refine ⟨?_, hfail, ?_, ?_⟩
  · intro loader
    simp [fetch_website_content, show ensure_url "example.com" =
      Except.ok "http://example.com" from rfl]
  · intro loader
    simp [fetch_website_content, show ensure_url "not a url??" =
      Except.error "Invalid URL: http://not a url??" from rfl]
  · intro loader st g h hg hne
    have hweb : acquired_web loader st = none := by
      unfold acquired_web
      cases htr : truthyOpt st.website_url with
      | false => simp
      | true => simp [hfail loader _ h]
    simp [get_website_content, hweb, opt_to_list, hg, hne]
    rfl

/-- C6 witness: with an always-failing loader, fetching `"example.com"` and
the invalid `"not a url??"` both yield no content, and a state with literal
content `"hello"` keeps exactly `"hello"` as its content blob. -/
theorem C6_url_normalization_and_fetch_failures_swallowed_witness :
    fetch_website_content failLoader "example.com" 10000 = none ∧
    fetch_website_content failLoader "not a url??" 10000 = none ∧
    (get_website_content failLoader
        { website_url := some "example.com", given_content := some "hello" }).website_content =
      some "hello" :=
  ⟨C6_url_normalization_and_fetch_failures_swallowed.2.1 failLoader
      "example.com" (fun _ => ⟨"network error", rfl⟩),
   C6_url_normalization_and_fetch_failures_swallowed.2.2.1 failLoader,
   C6_url_normalization_and_fetch_failures_swallowed.2.2.2 failLoader
      { website_url := some "example.com", given_content := some "hello" }
      "hello" (fun _ => ⟨"network error", rfl⟩) rfl (by decide)⟩

/-! ## C7 -/

/-- C7: the merged content blob is web text, a blank-line separator, then
literal text when both are present; the literal text alone when only it is
present; the web text alone when only the URL yields content; the empty
string when neither yields content. -/
theorem C7_content_blob_merge
    (loader : String → Except String (List String)) (st : GraphState)
    (w g : String) :
    ((acquired_web loader st = some w ∧ w ≠ "" ∧
        st.given_content = some g ∧ g ≠ "") →
      (get_website_content loader st).website_content =
        some (w ++ "\n\n" ++ g)) ∧
    ((opt_to_list (acquired_web loader st) = [] ∧
        st.given_content = some g ∧ g ≠ "") →
      (get_website_content loader st).website_content = some g) ∧
    ((acquired_web loader st = some w ∧ w ≠ "" ∧
        opt_to_list st.given_content = []) →
      (get_website_content loader st).website_content = some w) ∧
    ((opt_to_list (acquired_web loader st) = [] ∧
        opt_to_list st.given_content = []) →
      (get_website_content loader st).website_content = some "") := by
  refine ⟨?_, ?_, ?_, ?_⟩
  · rintro ⟨hw, hwne, hg, hgne⟩
    simp [get_website_content, opt_to_list, hw, hwne, hg, hgne]
    rfl
  · rintro ⟨hw, hg, hgne⟩
    simp only [get_website_content]
    rw [hw, hg]
    simp [opt_to_list, hgne]
    rfl
  · rintro ⟨hw, hwne, hg⟩
    simp only [get_website_content]
    rw [hw, hg]
    simp [opt_to_list, hwne]
    rfl
  · rintro ⟨hw, hg⟩
    simp only [get_website_content]
    rw [hw, hg]
    rfl

/-- C7 witness: a loader returning `"WEB"` plus literal `"LIT"` merge with
the blank-line separator. -/
theorem C7_content_blob_merge_witness :
    (get_website_content okLoader
        { website_url := some "example.com", given_content := some "LIT" }).website_content =
      some ("WEB" ++ "\n\n" ++ "LIT") :=
  (C7_content_blob_merge okLoader
      { website_url := some "example.com", given_content := some "LIT" }
      "WEB" "LIT").1 ⟨rfl, by decide, rfl, by decide⟩

/-! ## C10: whitespace is never accepted by the URL regex -/

/-- Destruct a whitespace character into the six possible characters. -/
theorem isPySpace_cases (c : Char) (h : isPySpace c = true) :
    c = ' ' ∨ c = '\t' ∨ c = '\n' ∨ c = '\r' ∨ c = '\x0b' ∨ c = '\x0c' := by
  simpa [isPySpace, or_assoc] using h

/-- Characters of the host class are not whitespace. -/
theorem isPySpace_eq_false_of_isHostChar (c : Char) (h : isHostChar c = true) :
    isPySpace c = false := by
  by_contra hcon
  rw [Bool.not_eq_false] at hcon
  rcases isPySpace_cases c hcon with h1 | h1 | h1 | h1 | h1 | h1 <;>
    subst h1 <;> simp [isHostChar] at h

/-- Digits are not whitespace. -/
theorem isPySpace_eq_false_of_isDigit (c : Char) (h : c.isDigit = true) :
    isPySpace c = false := by
  by_contra hcon
  rw [Bool.not_eq_false] at hcon
  rcases isPySpace_cases c hcon with h1 | h1 | h1 | h1 | h1 | h1 <;>
    subst h1 <;> simp [Char.isDigit] at h

/-- A match of the optional path piece contains no whitespace. -/
theorem matchPathOpt_no_space (cs : List Char) (h : matchPathOpt cs = true) :
    ∀ c ∈ cs, isPySpace c = false := by
  intro c hc
  cases cs with
  | nil => simp at hc
  | cons c0 rest =>
    simp only [matchPathOpt, Bool.and_eq_true, decide_eq_true_eq] at h
    rcases List.mem_cons.mp hc with h1 | h1
    · subst h1; rw [h.1]; rfl
    · simpa using List.all_eq_true.mp h.2 c h1

/-- Unfolding `matchPortPath` on a cons cell. -/
theorem matchPortPath_cons (c : Char) (rest : List Char) :
    matchPortPath (c :: rest) =
      if c = ':' then
        decide (rest.takeWhile Char.isDigit ≠ []) &&
          matchPathOpt (rest.dropWhile Char.isDigit)
      else matchPathOpt (c :: rest) := rfl

/-- A match of the port-then-path piece contains no whitespace. -/
theorem matchPortPath_no_space (cs : List Char)
    (h : matchPortPath cs = true) : ∀ c ∈ cs, isPySpace c = false := by
  intro c hc
  cases cs with
  | nil => simp at hc
  | cons c0 rest =>
    by_cases hcol : c0 = ':'
    · subst hcol
      rw [matchPortPath_cons, if_pos rfl, Bool.and_eq_true] at h
      rcases List.mem_cons.mp hc with h1 | h1
      · subst h1; rfl
      · rw [← List.takeWhile_append_dropWhile (p := Char.isDigit) (l := rest)]
          at h1
        rcases List.mem_append.mp h1 with h2 | h2
        · exact isPySpace_eq_false_of_isDigit c (List.mem_takeWhile_imp h2)
        · exact matchPathOpt_no_space _ h.2 c h2
    · have hpath : matchPathOpt (c0 :: rest) = true := by
        rwa [matchPortPath_cons, if_neg hcol] at h
      exact matchPathOpt_no_space _ hpath c hc

/-- A match of the host-port-path piece contains no whitespace. -/
theorem matchHostPortPath_no_space (cs : List Char)
    (h : matchHostPortPath cs = true) : ∀ c ∈ cs, isPySpace c = false := by
  intro c hc
  simp only [matchHostPortPath, Bool.and_eq_true] at h
  rw [← List.takeWhile_append_dropWhile (p := isHostChar) (l := cs)] at hc
  rcases List.mem_append.mp hc with h1 | h1
  · exact isPySpace_eq_false_of_isHostChar c (List.mem_takeWhile_imp h1)
  · exact matchPortPath_no_space _ h.2 c h1

/-- Stripping the scheme prefix keeps every whitespace character (the
stripped literal characters are not whitespace). -/
theorem mem_stripScheme_of_space (cs : List Char) (c : Char)
    (hsp : isPySpace c = true) (hc : c ∈ cs) : c ∈ stripScheme cs := by
  unfold stripScheme
  split
  · simp only [List.mem_cons] at hc
    rcases hc with h1 | h1 | h1 | h1 | h1 | h1 | h1 | h1 | h1
    all_goals first
      | (subst h1; simp [isPySpace] at hsp)
      | exact h1
  · simp only [List.mem_cons] at hc
    rcases hc with h1 | h1 | h1 | h1 | h1 | h1 | h1 | h1
    all_goals first
      | (subst h1; simp [isPySpace] at hsp)
      | exact h1
  · exact hc

/-- Lowercasing fixes whitespace characters. -/
theorem toLower_of_space (c : Char) (hsp : isPySpace c = true) :
    Char.toLower c = c := by
  rcases isPySpace_cases c hsp with h1 | h1 | h1 | h1 | h1 | h1 <;>
    subst h1 <;> decide

/-- Everything left after dropping a trailing newline was in the list. -/
theorem mem_of_mem_dropTrailingNewline (cs : List Char) (c : Char)
    (hc : c ∈ dropTrailingNewline cs) : c ∈ cs := by
  unfold dropTrailingNewline at hc
  split at hc
  · exact List.dropLast_subset cs hc
  · exact hc

/-- A string accepted by the URL regex contains no whitespace character
except possibly one final trailing newline (which Python's `$` steps
over). -/
theorem url_regex_match_space_is_trailing_newline (t : String)
    (h : url_regex_match t = true) :
    ∀ c ∈ dropTrailingNewline t.data, isPySpace c = false := by
  intro c hc
  by_contra hcon
  rw [Bool.not_eq_false] at hcon
  simp only [url_regex_match, Bool.or_eq_true, Bool.and_eq_true,
    decide_eq_true_eq] at h
  have hlow : ∀ ds : List Char, c ∈ ds →
      matchHostPortPath (stripScheme (ds.map Char.toLower)) = true → False := by
    intro ds hds hm
    have hmem : c ∈ ds.map Char.toLower := by
      have := List.mem_map_of_mem Char.toLower hds
      rwa [toLower_of_space c hcon] at this
    have hmem2 := mem_stripScheme_of_space _ c hcon hmem
    have := matchHostPortPath_no_space _ hm c hmem2
    rw [this] at hcon
    exact Bool.false_ne_true hcon
  rcases h with hA | ⟨hnl, hB⟩
  · exact hlow t.data (mem_of_mem_dropTrailingNewline _ c hc) hA
  · rw [dropTrailingNewline, if_pos hnl] at hc
    exact hlow t.data.dropLast hc hB

/-- Whitespace that survives dropping a trailing newline from `s` also
survives it in the prefixed string `normalize_url s`. -/
theorem mem_dropTrailingNewline_normalize_url (s : String) (c : Char)
    (hc : c ∈ dropTrailingNewline s.data) :
    c ∈ dropTrailingNewline (normalize_url s).data := by
  unfold normalize_url
  split
  · exact hc
  · rw [String.data_append]
    by_cases hne : s.data = []
    · rw [hne] at hc
      simp [dropTrailingNewline] at hc
    · by_cases hnl : s.data.getLast? = some '\n'
      · rw [dropTrailingNewline, if_pos hnl] at hc
        rw [dropTrailingNewline,
          if_pos (by rw [List.getLast?_append_of_ne_nil _ hne]; exact hnl),
          List.dropLast_append_of_ne_nil _ hne]
        exact List.mem_append_right _ hc
      · rw [dropTrailingNewline, if_neg hnl] at hc
        rw [dropTrailingNewline,
          if_neg (by rw [List.getLast?_append_of_ne_nil _ hne]; exact hnl)]
        exact List.mem_append_right _ hc

/-- C10 counterexample: the claim says `ensure_url` rejects every string
containing whitespace, but Python's `$` matches just before one trailing
newline, so `"localhost\n"` — which contains the whitespace character
`'\n'` — is accepted and returned as `"http://localhost\n"`. -/
theorem C10_trailing_newline_accepted_counterexample :
    isPySpace '\n' = true ∧ ('\n' ∈ String.data "localhost\n") ∧
    ensure_url "localhost\n" = Except.ok "http://localhost\n" :=
  ⟨by decide, by decide, rfl⟩

/-- C10 (amended): `ensure_url` raises exactly when the prefixed string
fails the URL regex; the regex needs no top-level domain, so `"localhost"`
is accepted and returned as `"http://localhost"`; a single trailing newline
is stepped over by the regex's `$`, so `"localhost\n"` is accepted; and any
string containing a whitespace character anywhere other than as one final
trailing newline is rejected. -/
theorem C10_ensure_url_regex_characterization :
    (∀ s, (∃ e, ensure_url s = Except.error e) ↔
      url_regex_match (normalize_url s) = false) ∧
    ensure_url "localhost" = Except.ok "http://localhost" ∧
    ensure_url "localhost\n" = Except.ok "http://localhost\n" ∧
    (∀ s c, c ∈ dropTrailingNewline s.data → isPySpace c = true →
      ∃ e, ensure_url s = Except.error e) := by
  have part1 : ∀ s, (∃ e, ensure_url s = Except.error e) ↔
      url_regex_match (normalize_url s) = false := by
    intro s
    cases hm : url_regex_match (normalize_url s) with
    | true => simp [ensure_url, hm]
    | false => simp [ensure_url, hm]
  refine ⟨part1, rfl, rfl, ?_⟩
  intro s c hc hsp
  rw [part1 s]
  by_contra hcon
  rw [Bool.not_eq_false] at hcon
  have := url_regex_match_space_is_trailing_newline (normalize_url s) hcon c
    (mem_dropTrailingNewline_normalize_url s c hc)
  rw [this] at hsp
  exact Bool.false_ne_true hsp

/-- C10 witness: `"localhost"` is accepted as `"http://localhost"`, and
`"not a url??"` (containing an interior space) is rejected. -/
theorem C10_ensure_url_regex_characterization_witness :
    ensure_url "localhost" = Except.ok "http://localhost" ∧
    (∃ e, ensure_url "not a url??" = Except.error e) :=
  ⟨C10_ensure_url_regex_characterization.2.1,
   C10_ensure_url_regex_characterization.2.2.2 "not a url??" ' '
     (by decide) (by decide)⟩

end LinkedinPost
